import Mathlib

/-!
Verification development for the `alexa_rust` request/response data model.

The Rust sources (`src/request.rs`, `src/response.rs`) are shallowly embedded:

* JSON wire values are the inductive `Json` below; `serde_json` object
  decoding of a `#[derive(Deserialize)]` struct is modelled field by field:
  a required field must be present with the right shape (otherwise the
  whole decode yields `none`), an `Option` field decodes to `none` when the
  key is absent or `null`, and unknown keys are ignored (serde's default).
  Rust `HashMap<String,String>` values are modelled as association lists
  whose keys are unique; `HashMap::insert` is the key-replacing `insertA`.
* `#[derive(Serialize)]` with `skip_serializing_if` is modelled by the
  `encode*` functions: a skipped field contributes no key at all.
* The `#[serde(tag = "type")]` internally tagged `Directive` enum encodes
  its tag as a leading `"type"` key and decodes by dispatching on it.
-/

namespace Alexa

/-- JSON values (numbers restricted to naturals, which covers every numeric
field of this schema: `offsetInMilliseconds: u64`, `timeoutInSeconds: u32`). -/
inductive Json where
  | null : Json
  | bool : Bool → Json
  | num : Nat → Json
  | str : String → Json
  | arr : List Json → Json
  | obj : List (String × Json) → Json

/-- First-match key lookup in a JSON object's field list. -/
def jlookup : List (String × Json) → String → Option Json
  | [], _ => none
  | (k', v) :: t, k => if k' = k then some v else jlookup t k

/-- The field list of a JSON object (empty for non-objects). -/
def objFields : Json → List (String × Json)
  | Json.obj kvs => kvs
  | _ => []

/-- The key list of a JSON object (empty for non-objects). -/
def objKeys (j : Json) : List String :=
  (objFields j).map Prod.fst

/-- Decode a required `String` field: present and a JSON string, else fail. -/
def getStr (kvs : List (String × Json)) (k : String) : Option String :=
  match jlookup kvs k with
  | some (Json.str s) => some s
  | _ => none

/-- Decode a required `bool` field. -/
def getBool (kvs : List (String × Json)) (k : String) : Option Bool :=
  match jlookup kvs k with
  | some (Json.bool b) => some b
  | _ => none

/-- Decode a required unsigned-integer field. -/
def getNum (kvs : List (String × Json)) (k : String) : Option Nat :=
  match jlookup kvs k with
  | some (Json.num n) => some n
  | _ => none

/-- Decode a required field of any type with the given sub-decoder. -/
def getReq (dec : Json → Option α) (kvs : List (String × Json)) (k : String) :
    Option α :=
  match jlookup kvs k with
  | some j => dec j
  | none => none

/-- Decode an `Option` field: absent or `null` is `none`, a present value
must decode with the sub-decoder (serde's `Option` behaviour). -/
def getOpt (dec : Json → Option α) (kvs : List (String × Json)) (k : String) :
    Option (Option α) :=
  match jlookup kvs k with
  | none => some none
  | some Json.null => some none
  | some j => (dec j).map some

/-- Decode an `Option<String>` field. -/
def getOptStr (kvs : List (String × Json)) (k : String) : Option (Option String) :=
  getOpt (fun j => match j with | Json.str s => some s | _ => none) kvs k

/-- Decode the entries of a JSON object as a `HashMap<String,String>`. -/
def decodeStrPairs : List (String × Json) → Option (List (String × String))
  | [] => some []
  | (k, Json.str v) :: t => (decodeStrPairs t).map (fun r => (k, v) :: r)
  | _ => none

/-- Decode a `HashMap<String,String>` value (must be a JSON object of strings). -/
def decodeStrMap : Json → Option (List (String × String))
  | Json.obj kvs => decodeStrPairs kvs
  | _ => none

/-- Decode a `Vec<T>` value with the given element decoder. -/
def decodeList (dec : Json → Option α) : Json → Option (List α)
  | Json.arr js => js.mapM dec
  | _ => none

/-! ## Request-side data model (`src/request.rs`) -/

/-- Rust `Application { applicationId }` -/
structure Application where
  application_id : String
deriving DecidableEq, Repr

/-- Rust `User { userId, accessToken: Option }` -/
structure User where
  user_id : String
  access_token : Option String
deriving DecidableEq, Repr

/-- Rust `Session { new, sessionId, attributes: Option, application, user }` -/
structure Session where
  new : Bool
  session_id : String
  attributes : Option (List (String × String))
  application : Application
  user : User
deriving DecidableEq, Repr

/-- Rust `Device { deviceId }` -/
structure Device where
  device_id : String
deriving DecidableEq, Repr

/-- Rust `System { apiAccessToken, device: Option, application: Option }` -/
structure System where
  api_access_token : String
  device : Option Device
  application : Option Application
deriving DecidableEq, Repr

/-- Rust `AudioPlayer { token, offsetInMilliseconds: u64, playerActivity }` -/
structure AudioPlayer where
  token : String
  offset_in_milliseconds : Nat
  player_activity : String
deriving DecidableEq, Repr

/-- Rust `Value { name, id }` -/
structure Value where
  name : String
  id : String
deriving DecidableEq, Repr

/-- Rust `Status { code }` -/
structure Status where
  code : String
deriving DecidableEq, Repr

/-- Rust `ResolutionsPerAuthority { authority, status, values }` -/
structure ResolutionsPerAuthority where
  authority : String
  status : Status
  values : List Value
deriving DecidableEq, Repr

/-- Rust `Resolution { resolutionsPerAuthority }` -/
structure Resolution where
  resolutions_per_authority : List ResolutionsPerAuthority
deriving DecidableEq, Repr

/-- Rust `Slot { name, value, confirmationStatus, resolutions: Option }` -/
structure Slot where
  name : String
  value : String
  confirmation_status : String
  resolutions : Option Resolution
deriving DecidableEq, Repr

/-- Rust `Intent { name, confirmationStatus, slots: Option<HashMap<String,Slot>> }` -/
structure Intent where
  name : String
  confirmation_status : String
  slots : Option (List (String × Slot))
deriving DecidableEq, Repr

/-- Rust `ReqBody { type, requestId, timestamp, locale, intent: Option,
reason: Option, dialogState: Option }` (Rust field `reqtype` is wire `type`). -/
structure ReqBody where
  reqtype : String
  request_id : String
  timestamp : String
  locale : String
  intent : Option Intent
  reason : Option String
  dialog_state : Option String
deriving DecidableEq, Repr

/-- Rust `Context { System, AudioPlayer: Option }` -/
structure Context where
  system : System
  audio_player : Option AudioPlayer
deriving DecidableEq, Repr

/-- Rust `Request { version, session: Option, request: ReqBody, context }`
(Rust field `body` is wire `request`). -/
structure Request where
  version : String
  session : Option Session
  body : ReqBody
  context : Context
deriving DecidableEq, Repr

/-! ## Request-side decoders -/

/-- serde decode of `Application`. -/
def decodeApplication : Json → Option Application
  | Json.obj kvs => (getStr kvs "applicationId").map Application.mk
  | _ => none

/-- serde decode of `User`. -/
def decodeUser : Json → Option User
  | Json.obj kvs => do
      let uid ← getStr kvs "userId"
      let tok ← getOptStr kvs "accessToken"
      some ⟨uid, tok⟩
  | _ => none

/-- serde decode of `Device`. -/
def decodeDevice : Json → Option Device
  | Json.obj kvs => (getStr kvs "deviceId").map Device.mk
  | _ => none

/-- serde decode of `Session`. -/
def decodeSession : Json → Option Session
  | Json.obj kvs => do
      let n ← getBool kvs "new"
      let sid ← getStr kvs "sessionId"
      let attrs ← getOpt decodeStrMap kvs "attributes"
      let app ← getReq decodeApplication kvs "application"
      let usr ← getReq decodeUser kvs "user"
      some ⟨n, sid, attrs, app, usr⟩
  | _ => none

/-- serde decode of `System`. -/
def decodeSystem : Json → Option System
  | Json.obj kvs => do
      let tok ← getStr kvs "apiAccessToken"
      let dev ← getOpt decodeDevice kvs "device"
      let app ← getOpt decodeApplication kvs "application"
      some ⟨tok, dev, app⟩
  | _ => none

/-- serde decode of `AudioPlayer`. -/
def decodeAudioPlayer : Json → Option AudioPlayer
  | Json.obj kvs => do
      let tok ← getStr kvs "token"
      let off ← getNum kvs "offsetInMilliseconds"
      let act ← getStr kvs "playerActivity"
      some ⟨tok, off, act⟩
  | _ => none

/-- serde decode of `Value`. -/
def decodeValue : Json → Option Value
  | Json.obj kvs => do
      let n ← getStr kvs "name"
      let i ← getStr kvs "id"
      some ⟨n, i⟩
  | _ => none

/-- serde decode of `Status`. -/
def decodeStatus : Json → Option Status
  | Json.obj kvs => (getStr kvs "code").map Status.mk
  | _ => none

/-- serde decode of `ResolutionsPerAuthority`. -/
def decodeResolutionsPerAuthority : Json → Option ResolutionsPerAuthority
  | Json.obj kvs => do
      let a ← getStr kvs "authority"
      let st ← getReq decodeStatus kvs "status"
      let vs ← getReq (decodeList decodeValue) kvs "values"
      some ⟨a, st, vs⟩
  | _ => none

/-- serde decode of `Resolution`. -/
def decodeResolution : Json → Option Resolution
  | Json.obj kvs =>
      (getReq (decodeList decodeResolutionsPerAuthority) kvs
        "resolutionsPerAuthority").map Resolution.mk
  | _ => none

/-- serde decode of `Slot`. -/
def decodeSlot : Json → Option Slot
  | Json.obj kvs => do
      let n ← getStr kvs "name"
      let v ← getStr kvs "value"
      let cs ← getStr kvs "confirmationStatus"
      let res ← getOpt decodeResolution kvs "resolutions"
      some ⟨n, v, cs, res⟩
  | _ => none

/-- serde decode of the entries of a `HashMap<String,Slot>`. -/
def decodeSlotPairs : List (String × Json) → Option (List (String × Slot))
  | [] => some []
  | (k, j) :: t => do
      let s ← decodeSlot j
      let r ← decodeSlotPairs t
      some ((k, s) :: r)

/-- serde decode of a `HashMap<String,Slot>` value. -/
def decodeSlots : Json → Option (List (String × Slot))
  | Json.obj kvs => decodeSlotPairs kvs
  | _ => none

/-- serde decode of `Intent`. -/
def decodeIntent : Json → Option Intent
  | Json.obj kvs => do
      let n ← getStr kvs "name"
      let cs ← getStr kvs "confirmationStatus"
      let sl ← getOpt decodeSlots kvs "slots"
      some ⟨n, cs, sl⟩
  | _ => none

/-- serde decode of `ReqBody`. -/
def decodeReqBody : Json → Option ReqBody
  | Json.obj kvs => do
      let ty ← getStr kvs "type"
      let rid ← getStr kvs "requestId"
      let ts ← getStr kvs "timestamp"
      let loc ← getStr kvs "locale"
      let it ← getOpt decodeIntent kvs "intent"
      let rsn ← getOptStr kvs "reason"
      let ds ← getOptStr kvs "dialogState"
      some ⟨ty, rid, ts, loc, it, rsn, ds⟩
  | _ => none

/-- serde decode of `Context` (wire keys `System`, `AudioPlayer`). -/
def decodeContext : Json → Option Context
  | Json.obj kvs => do
      let sys ← getReq decodeSystem kvs "System"
      let ap ← getOpt decodeAudioPlayer kvs "AudioPlayer"
      some ⟨sys, ap⟩
  | _ => none

/-- serde decode of the whole `Request` envelope (wire key `request` feeds
the in-memory `body` field). -/
def decodeRequest : Json → Option Request
  | Json.obj kvs => do
      let v ← getStr kvs "version"
      let s ← getOpt decodeSession kvs "session"
      let b ← getReq decodeReqBody kvs "request"
      let c ← getReq decodeContext kvs "context"
      some ⟨v, s, b, c⟩
  | _ => none

/-! ## Classifiers (`IntentType`, `Locale`) -/

/-- The `IntentType` enum of `src/request.rs`. -/
inductive IntentType where
  | none
  | help
  | cancel
  | fallback
  | loopOff
  | loopOn
  | next
  | no
  | pause
  | previous
  | repeat
  | resume
  | select
  | shuffleOn
  | shuffleOff
  | startOver
  | stop
  | yes
  | user : String → IntentType
deriving DecidableEq, Repr

/-- The `Locale` enum of `src/request.rs`. -/
inductive Locale where
  | italian
  | german
  | australianEnglish
  | canadianEnglish
  | britishEnglish
  | indianEnglish
  | americanEnglish
  | japanese
  | unknown
deriving DecidableEq, Repr

/-- Rust `Locale::is_english` (`src/request.rs:169-178`). -/
def Locale.is_english : Locale → Bool
  | Locale.americanEnglish => true
  | Locale.australianEnglish => true
  | Locale.canadianEnglish => true
  | Locale.britishEnglish => true
  | Locale.indianEnglish => true
  | _ => false

/-- Rust `impl From<&str> for Locale` (`src/request.rs:181-195`): the Rust `match`
on string literals is an if-then-else cascade of exact equality tests. -/
def Locale.fromString (s : String) : Locale :=
  if s = "it-IT" then Locale.italian
  else if s = "de-DE" then Locale.german
  else if s = "en-AU" then Locale.australianEnglish
  else if s = "en-CA" then Locale.canadianEnglish
  else if s = "en-GB" then Locale.britishEnglish
  else if s = "en-IN" then Locale.indianEnglish
  else if s = "en-US" then Locale.americanEnglish
  else if s = "ja-JP" then Locale.japanese
  else Locale.unknown

/-- Rust `Request::locale` (`src/request.rs:204-206`). -/
def Request.locale (r : Request) : Locale :=
  Locale.fromString r.body.locale

/-- Rust `Request::intent` (`src/request.rs:208-233`): the Rust `match` on
`i.name.as_str()` is an if-then-else cascade of exact equality tests. -/
def Request.intent (r : Request) : IntentType :=
  match r.body.intent with
  | some i =>
      if i.name = "AMAZON.HelpIntent" then IntentType.help
      else if i.name = "AMAZON.CancelIntent" then IntentType.cancel
      else if i.name = "AMAZON.FallbackIntent" then IntentType.fallback
      else if i.name = "AMAZON.LoopOffIntent" then IntentType.loopOff
      else if i.name = "AMAZON.LoopOnIntent" then IntentType.loopOn
      else if i.name = "AMAZON.NextIntent" then IntentType.next
      else if i.name = "AMAZON.NoIntent" then IntentType.no
      else if i.name = "AMAZON.PauseIntent" then IntentType.pause
      else if i.name = "AMAZON.PreviousIntent" then IntentType.previous
      else if i.name = "AMAZON.RepeatIntent" then IntentType.repeat
      else if i.name = "AMAZON.ResumeIntent" then IntentType.resume
      else if i.name = "AMAZON.SelectIntent" then IntentType.select
      else if i.name = "AMAZON.ShuffleOffIntent" then IntentType.shuffleOff
      else if i.name = "AMAZON.ShuffleOnIntent" then IntentType.shuffleOn
      else if i.name = "AMAZON.StartOverIntent" then IntentType.startOver
      else if i.name = "AMAZON.StopIntent" then IntentType.stop
      else if i.name = "AMAZON.YesIntent" then IntentType.yes
      else IntentType.user i.name
  | none => IntentType.none

/-- The fixed built-in intent-name table of `Request::intent`, as
(name, classification) pairs, used to state the classification claims. -/
def builtinIntentTable : List (String × IntentType) :=
  [("AMAZON.HelpIntent", IntentType.help),
   ("AMAZON.CancelIntent", IntentType.cancel),
   ("AMAZON.FallbackIntent", IntentType.fallback),
   ("AMAZON.LoopOffIntent", IntentType.loopOff),
   ("AMAZON.LoopOnIntent", IntentType.loopOn),
   ("AMAZON.NextIntent", IntentType.next),
   ("AMAZON.NoIntent", IntentType.no),
   ("AMAZON.PauseIntent", IntentType.pause),
   ("AMAZON.PreviousIntent", IntentType.previous),
   ("AMAZON.RepeatIntent", IntentType.repeat),
   ("AMAZON.ResumeIntent", IntentType.resume),
   ("AMAZON.SelectIntent", IntentType.select),
   ("AMAZON.ShuffleOffIntent", IntentType.shuffleOff),
   ("AMAZON.ShuffleOnIntent", IntentType.shuffleOn),
   ("AMAZON.StartOverIntent", IntentType.startOver),
   ("AMAZON.StopIntent", IntentType.stop),
   ("AMAZON.YesIntent", IntentType.yes)]

/-- The fixed supported-locale-tag table of `From<&str> for Locale`. -/
def supportedLocaleTags : List String :=
  ["it-IT", "de-DE", "en-AU", "en-CA", "en-GB", "en-IN", "en-US", "ja-JP"]

/-! ## Response-side data model (`src/response.rs`) -/

/-- Rust `Speech { type, text: Option, ssml: Option, playBehavior: Option }`. -/
structure Speech where
  speech_type : String
  text : Option String
  ssml : Option String
  play_behavior : Option String
deriving DecidableEq, Repr

/-- Rust `Image { smallImageUrl: Option, largeImageUrl: Option }`. -/
structure Image where
  small_image_url : Option String
  large_image_url : Option String
deriving DecidableEq, Repr

/-- Rust `Card { type, title, content, text, image, permissions — all optional
but `type` }`. -/
structure Card where
  card_type : String
  title : Option String
  content : Option String
  text : Option String
  image : Option Image
  permissions : Option (List String)
deriving DecidableEq, Repr

/-- Rust `Reprompt { outputSpeech }`. -/
structure Reprompt where
  output_speech : Speech
deriving DecidableEq, Repr

/-- Rust `AlexaPresentationHTMLStartDirectiveRequest { uri, method, headers }`. -/
structure AlexaPresentationHTMLStartDirectiveRequest where
  uri : String
  method : String
  headers : List (String × String)
deriving DecidableEq, Repr

/-- Rust `AlexaPresentationHTMLStartDirectiveConfiguration { timeoutInSeconds }`. -/
structure AlexaPresentationHTMLStartDirectiveConfiguration where
  timeout_in_seconds : Option Nat
deriving DecidableEq, Repr

/-- Rust `AlexaPresentationHTMLStartDirectiveTransformerType`:
`ssmlToSpeech` or `textToSpeech`. -/
inductive AlexaPresentationHTMLStartDirectiveTransformerType where
  | ssmlToSpeech
  | textToSpeech
deriving DecidableEq, Repr

/-- Rust `AlexaPresentationHTMLStartDirectiveTransformer { inputPath,
outputName: Option, transformer }`. -/
structure AlexaPresentationHTMLStartDirectiveTransformer where
  input_path : String
  output_name : Option String
  transformer : AlexaPresentationHTMLStartDirectiveTransformerType
deriving DecidableEq, Repr

/-- Rust `AlexaPresentationHTMLStartDirective { data, request, configuration,
transformers }`. -/
structure AlexaPresentationHTMLStartDirective where
  data : List (String × String)
  request : AlexaPresentationHTMLStartDirectiveRequest
  configuration : AlexaPresentationHTMLStartDirectiveConfiguration
  transformers : List AlexaPresentationHTMLStartDirectiveTransformer
deriving DecidableEq, Repr

/-- The `#[serde(tag = "type")]` `Directive` enum, sole variant
`Alexa.Presentation.HTML.Start`. -/
inductive Directive where
  | alexaPresentationHTMLStartDirective :
      AlexaPresentationHTMLStartDirective → Directive
deriving DecidableEq, Repr

/-- Rust `ResBody { outputSpeech, card, reprompt, shouldEndSession, directives }`. -/
structure ResBody where
  output_speech : Option Speech
  card : Option Card
  reprompt : Option Reprompt
  should_end_session : Option Bool
  directives : List Directive
deriving DecidableEq, Repr

/-- Rust `Response { version, sessionAttributes: Option, response: ResBody }`
(Rust field `body` is wire `response`). -/
structure Response where
  version : String
  session_attributes : Option (List (String × String))
  body : ResBody
deriving DecidableEq, Repr

/-! ## Response builders (`impl Response`, `impl Speech`, `impl Card`) -/

/-- Rust `Version::V1_0.to_string()` (`fmt::Display for Version`). -/
def versionString : String := "1.0"

/-- Rust `SpeechType::Plain.to_string()` / `SpeechType::Ssml.to_string()`. -/
def speechTypeString : Bool → String
  | true => "PlainText"
  | false => "SSML"

/-- Rust `PlayBehavior` enum. -/
inductive PlayBehavior where
  | enqueue
  | replaceAll
  | replaceEnqueued
deriving DecidableEq, Repr

/-- Rust `fmt::Display for PlayBehavior`. -/
def PlayBehavior.toWire : PlayBehavior → String
  | PlayBehavior.enqueue => "ENQUEUE"
  | PlayBehavior.replaceAll => "REPLACE_ALL"
  | PlayBehavior.replaceEnqueued => "REPLACE_ENQUEUED"

/-- Rust `CardType` enum. -/
inductive CardType where
  | simple
  | standard
  | linkAccount
  | askForPermission
deriving DecidableEq, Repr

/-- Rust `fmt::Display for CardType`. -/
def CardType.toWire : CardType → String
  | CardType.simple => "Simple"
  | CardType.standard => "Standard"
  | CardType.linkAccount => "LinkAccount"
  | CardType.askForPermission => "AskForPermissonConsent"

/-- Rust `Speech::plain` (`src/response.rs:159-166`). -/
def Speech.plain (s : String) : Speech :=
  { speech_type := speechTypeString true
    text := some s
    ssml := none
    play_behavior := none }

/-- Rust `Speech::ssml` (`src/response.rs:169-176`). -/
def Speech.ssml_of (s : String) : Speech :=
  { speech_type := speechTypeString false
    ssml := some s
    text := none
    play_behavior := none }

/-- Rust `Speech::play_behavior` (`src/response.rs:179-181`); the Rust method
mutates `self`, modelled as returning the updated value. -/
def Speech.set_play_behavior (s : Speech) (b : PlayBehavior) : Speech :=
  { s with play_behavior := some b.toWire }

/-- Rust `Card::simple` (`src/response.rs:223-232`). -/
def Card.simple (title text : String) : Card :=
  { card_type := CardType.simple.toWire
    title := some title
    content := some text
    text := none
    image := none
    permissions := none }

/-- Rust `Card::standard` (`src/response.rs:235-244`). -/
def Card.standard (title text : String) (image : Image) : Card :=
  { card_type := CardType.standard.toWire
    title := some title
    content := none
    text := some text
    image := some image
    permissions := none }

/-- Rust `Response::new` (`src/response.rs:24-36`). -/
def Response.new (should_end : Option Bool) : Response :=
  { version := versionString
    session_attributes := none
    body :=
      { output_speech := none
        card := none
        reprompt := none
        should_end_session := should_end
        directives := [] } }

/-- Rust `Response::speech` (`src/response.rs:56-59`). -/
def Response.speech (r : Response) (s : Speech) : Response :=
  { r with body := { r.body with output_speech := some s } }

/-- Rust `Response::card` (`src/response.rs:62-65`). -/
def Response.card (r : Response) (c : Card) : Response :=
  { r with body := { r.body with card := some c } }

/-- Rust `Response::simple` (`src/response.rs:44-48`). -/
def Response.simple (title text : String) : Response :=
  ((Response.new (some true)).card (Card.simple title text)).speech
    (Speech.plain text)

/-- Rust `Response::end` (`src/response.rs:51-53`). -/
def Response.end_session : Response :=
  Response.new (some true)

/-- Rust `HashMap::insert` on an association list with unique keys: replace the
value at an existing key, else append the new binding at the front. -/
def insertA : List (String × String) → String → String → List (String × String)
  | [], k, v => [(k, v)]
  | (k', v') :: t, k, v =>
      if k' = k then (k, v) :: t else (k', v') :: insertA t k v

/-- Association-list lookup (the read side of the `HashMap` model). -/
def alookup : List (String × String) → String → Option String
  | [], _ => none
  | (k', v) :: t, k => if k' = k then some v else alookup t k

/-- Rust `Response::add_attribute` (`src/response.rs:70-78`); the Rust method
mutates `self`, modelled as returning the updated value. -/
def Response.add_attribute (r : Response) (key val : String) : Response :=
  match r.session_attributes with
  | some h => { r with session_attributes := some (insertA h key val) }
  | none => { r with session_attributes := some [(key, val)] }

/-- Rust `Response::add_directive` (`src/response.rs:80-82`): `Vec::push`. -/
def Response.add_directive (r : Response) (d : Directive) : Response :=
  { r with body := { r.body with directives := r.body.directives ++ [d] } }

/-! ## Response-side encoders (serde `Serialize` with `skip_serializing_if`) -/

/-- Emit one field, or nothing when the serializer skips it. -/
def optField (k : String) : Option Json → List (String × Json)
  | none => []
  | some j => [(k, j)]

/-- Serialize a `HashMap<String,String>`. -/
def encodeStrMap (m : List (String × String)) : Json :=
  Json.obj (m.map (fun p => (p.1, Json.str p.2)))

/-- Serialize `Speech` (`text`, `ssml`, `playBehavior` skipped when `None`). -/
def encodeSpeech (s : Speech) : Json :=
  Json.obj ([("type", Json.str s.speech_type)]
    ++ optField "text" (s.text.map Json.str)
    ++ optField "ssml" (s.ssml.map Json.str)
    ++ optField "playBehavior" (s.play_behavior.map Json.str))

/-- Serialize `Image` (both fields skipped when `None`). -/
def encodeImage (i : Image) : Json :=
  Json.obj (optField "smallImageUrl" (i.small_image_url.map Json.str)
    ++ optField "largeImageUrl" (i.large_image_url.map Json.str))

/-- Serialize `Card` (every field but `type` skipped when `None`). -/
def encodeCard (c : Card) : Json :=
  Json.obj ([("type", Json.str c.card_type)]
    ++ optField "title" (c.title.map Json.str)
    ++ optField "content" (c.content.map Json.str)
    ++ optField "text" (c.text.map Json.str)
    ++ optField "image" (c.image.map encodeImage)
    ++ optField "permissions"
        (c.permissions.map (fun ps => Json.arr (ps.map Json.str))))

/-- Serialize `Reprompt`. -/
def encodeReprompt (rp : Reprompt) : Json :=
  Json.obj [("outputSpeech", encodeSpeech rp.output_speech)]

/-- Serialize `AlexaPresentationHTMLStartDirectiveRequest`
(`headers` skipped when empty). -/
def encodeHTMLStartRequest (q : AlexaPresentationHTMLStartDirectiveRequest) :
    Json :=
  Json.obj ([("uri", Json.str q.uri), ("method", Json.str q.method)]
    ++ (if q.headers = [] then [] else [("headers", encodeStrMap q.headers)]))

/-- Serialize `AlexaPresentationHTMLStartDirectiveConfiguration`
(`timeoutInSeconds` skipped when `None`). -/
def encodeHTMLStartConfiguration
    (c : AlexaPresentationHTMLStartDirectiveConfiguration) : Json :=
  Json.obj (optField "timeoutInSeconds" (c.timeout_in_seconds.map Json.num))

/-- Serialize `AlexaPresentationHTMLStartDirectiveTransformerType`. -/
def encodeTransformerType :
    AlexaPresentationHTMLStartDirectiveTransformerType → Json
  | AlexaPresentationHTMLStartDirectiveTransformerType.ssmlToSpeech =>
      Json.str "ssmlToSpeech"
  | AlexaPresentationHTMLStartDirectiveTransformerType.textToSpeech =>
      Json.str "textToSpeech"

/-- Serialize `AlexaPresentationHTMLStartDirectiveTransformer`
(`outputName` skipped when `None`). -/
def encodeTransformer (t : AlexaPresentationHTMLStartDirectiveTransformer) :
    Json :=
  Json.obj ([("inputPath", Json.str t.input_path)]
    ++ optField "outputName" (t.output_name.map Json.str)
    ++ [("transformer", encodeTransformerType t.transformer)])

/-- The payload fields of the HTML-start variant (`data`, `transformers`
skipped when empty). -/
def encodeHTMLStartFields (d : AlexaPresentationHTMLStartDirective) :
    List (String × Json) :=
  (if d.data = [] then [] else [("data", encodeStrMap d.data)])
    ++ [("request", encodeHTMLStartRequest d.request),
        ("configuration", encodeHTMLStartConfiguration d.configuration)]
    ++ (if d.transformers = [] then []
        else [("transformers", Json.arr (d.transformers.map encodeTransformer))])

/-- Serialize `Directive`: internally tagged, the `type` key carries the
variant's fixed literal tag and the payload fields follow. -/
def encodeDirective : Directive → Json
  | Directive.alexaPresentationHTMLStartDirective d =>
      Json.obj (("type", Json.str "Alexa.Presentation.HTML.Start")
        :: encodeHTMLStartFields d)

/-- Serialize `ResBody` (optional fields skipped when `None`, `directives`
skipped when empty). -/
def encodeResBody (b : ResBody) : Json :=
  Json.obj (optField "outputSpeech" (b.output_speech.map encodeSpeech)
    ++ optField "card" (b.card.map encodeCard)
    ++ optField "reprompt" (b.reprompt.map encodeReprompt)
    ++ optField "shouldEndSession" (b.should_end_session.map Json.bool)
    ++ (if b.directives = [] then []
        else [("directives", Json.arr (b.directives.map encodeDirective))]))

/-- Serialize `Response` (`sessionAttributes` skipped when `None`). -/
def encodeResponse (r : Response) : Json :=
  Json.obj ([("version", Json.str r.version)]
    ++ optField "sessionAttributes" (r.session_attributes.map encodeStrMap)
    ++ [("response", encodeResBody r.body)])

/-! ## Response-side decoders (only what `Directive` decoding needs) -/

/-- serde decode of `AlexaPresentationHTMLStartDirectiveRequest` (all three
fields are required on decode: no `#[serde(default)]` is declared). -/
def decodeHTMLStartRequest :
    Json → Option AlexaPresentationHTMLStartDirectiveRequest
  | Json.obj kvs => do
      let u ← getStr kvs "uri"
      let m ← getStr kvs "method"
      let h ← getReq decodeStrMap kvs "headers"
      some ⟨u, m, h⟩
  | _ => none

/-- serde decode of `AlexaPresentationHTMLStartDirectiveConfiguration`. -/
def decodeHTMLStartConfiguration :
    Json → Option AlexaPresentationHTMLStartDirectiveConfiguration
  | Json.obj kvs =>
      (getOpt (fun j => match j with | Json.num n => some n | _ => none)
        kvs "timeoutInSeconds").map
        AlexaPresentationHTMLStartDirectiveConfiguration.mk
  | _ => none

/-- serde decode of `AlexaPresentationHTMLStartDirectiveTransformerType`. -/
def decodeTransformerType :
    Json → Option AlexaPresentationHTMLStartDirectiveTransformerType
  | Json.str "ssmlToSpeech" =>
      some AlexaPresentationHTMLStartDirectiveTransformerType.ssmlToSpeech
  | Json.str "textToSpeech" =>
      some AlexaPresentationHTMLStartDirectiveTransformerType.textToSpeech
  | _ => none

/-- serde decode of `AlexaPresentationHTMLStartDirectiveTransformer`. -/
def decodeTransformer :
    Json → Option AlexaPresentationHTMLStartDirectiveTransformer
  | Json.obj kvs => do
      let ip ← getStr kvs "inputPath"
      let outn ← getOptStr kvs "outputName"
      let tr ← getReq decodeTransformerType kvs "transformer"
      some ⟨ip, outn, tr⟩
  | _ => none

/-- serde decode of the HTML-start variant's payload (all four fields are
required on decode: `skip_serializing_if` does not imply a decode default). -/
def decodeHTMLStartPayload :
    Json → Option AlexaPresentationHTMLStartDirective
  | Json.obj kvs => do
      let dt ← getReq decodeStrMap kvs "data"
      let rq ← getReq decodeHTMLStartRequest kvs "request"
      let cf ← getReq decodeHTMLStartConfiguration kvs "configuration"
      let ts ← getReq (decodeList decodeTransformer) kvs "transformers"
      some ⟨dt, rq, cf, ts⟩
  | _ => none

/-- serde decode of the internally tagged `Directive`: read the `type` tag,
dispatch on its value, and reject any unrecognized tag (closed set). -/
def decodeDirective : Json → Option Directive
  | Json.obj kvs =>
      match jlookup kvs "type" with
      | some (Json.str t) =>
          if t = "Alexa.Presentation.HTML.Start" then
            (decodeHTMLStartPayload (Json.obj kvs)).map
              Directive.alexaPresentationHTMLStartDirective
          else none
      | _ => none
  | _ => none

/-! ## Derived read-side helpers and statement vocabulary -/

/-- The session-attributes mapping of a response (`[]` when not yet created). -/
def attrs (r : Response) : List (String × String) :=
  r.session_attributes.getD []

/-- The keys of a `HashMap<String,String>` model value. -/
def akeys (m : List (String × String)) : List String :=
  m.map Prod.fst

/-- Exactly one of `text` / `ssml` is populated, matching the `type` tag. -/
def speechWf (s : Speech) : Prop :=
  (s.speech_type = "PlainText" ∧ s.text ≠ none ∧ s.ssml = none)
    ∨ (s.speech_type = "SSML" ∧ s.ssml ≠ none ∧ s.text = none)

/-! ## Concrete wire envelopes and values used to instantiate the claims -/

/-- Minimal valid envelope: every optional field of the model is absent. -/
def minimalEnvelope : Json :=
  Json.obj
    [("version", Json.str "1.0"),
     ("request", Json.obj
       [("type", Json.str "LaunchRequest"),
        ("requestId", Json.str "amzn1.echo-api.request.r1"),
        ("timestamp", Json.str "2018-12-03T00:33:58Z"),
        ("locale", Json.str "en-US")]),
     ("context", Json.obj
       [("System", Json.obj [("apiAccessToken", Json.str "tok")])])]

/-- The decode of `minimalEnvelope`: all optional fields come out absent. -/
def minimalRequest : Request :=
  { version := "1.0"
    session := none
    body :=
      { reqtype := "LaunchRequest"
        request_id := "amzn1.echo-api.request.r1"
        timestamp := "2018-12-03T00:33:58Z"
        locale := "en-US"
        intent := none
        reason := none
        dialog_state := none }
    context :=
      { system := { api_access_token := "tok", device := none, application := none }
        audio_player := none } }

/-- Envelope with the nested structures present but their own optional
fields (`attributes`, `accessToken`, `device`, `application`, `slots`,
`resolutions`) absent. -/
def optionalsEnvelope : Json :=
  Json.obj
    [("version", Json.str "1.0"),
     ("session", Json.obj
       [("new", Json.bool true),
        ("sessionId", Json.str "amzn1.echo-api.session.s1"),
        ("application", Json.obj [("applicationId", Json.str "app1")]),
        ("user", Json.obj [("userId", Json.str "u1")])]),
     ("request", Json.obj
       [("type", Json.str "IntentRequest"),
        ("requestId", Json.str "amzn1.echo-api.request.r2"),
        ("timestamp", Json.str "2018-12-03T00:33:58Z"),
        ("locale", Json.str "en-US"),
        ("intent", Json.obj
          [("name", Json.str "hello"),
           ("confirmationStatus", Json.str "NONE"),
           ("slots", Json.obj
             [("who", Json.obj
               [("name", Json.str "who"),
                ("value", Json.str "world"),
                ("confirmationStatus", Json.str "NONE")])])])]),
     ("context", Json.obj
       [("System", Json.obj [("apiAccessToken", Json.str "tok")])])]

/-- The decode of `optionalsEnvelope`. -/
def optionalsRequest : Request :=
  { version := "1.0"
    session := some
      { new := true
        session_id := "amzn1.echo-api.session.s1"
        attributes := none
        application := { application_id := "app1" }
        user := { user_id := "u1", access_token := none } }
    body :=
      { reqtype := "IntentRequest"
        request_id := "amzn1.echo-api.request.r2"
        timestamp := "2018-12-03T00:33:58Z"
        locale := "en-US"
        intent := some
          { name := "hello"
            confirmation_status := "NONE"
            slots := some
              [("who",
                { name := "who"
                  value := "world"
                  confirmation_status := "NONE"
                  resolutions := none })] }
        reason := none
        dialog_state := none }
    context :=
      { system := { api_access_token := "tok", device := none, application := none }
        audio_player := none } }

/-- The minimal envelope with its required `requestId` field removed. -/
def envelopeMissingRequestId : Json :=
  Json.obj
    [("version", Json.str "1.0"),
     ("request", Json.obj
       [("type", Json.str "LaunchRequest"),
        ("timestamp", Json.str "2018-12-03T00:33:58Z"),
        ("locale", Json.str "en-US")]),
     ("context", Json.obj
       [("System", Json.obj [("apiAccessToken", Json.str "tok")])])]

/-- The minimal envelope with its required `requestId` field mistyped as a
number. -/
def envelopeMistypedRequestId : Json :=
  Json.obj
    [("version", Json.str "1.0"),
     ("request", Json.obj
       [("type", Json.str "LaunchRequest"),
        ("requestId", Json.num 5),
        ("timestamp", Json.str "2018-12-03T00:33:58Z"),
        ("locale", Json.str "en-US")]),
     ("context", Json.obj
       [("System", Json.obj [("apiAccessToken", Json.str "tok")])])]

/-- Request carrying an intent whose name has leading whitespace. -/
def whitespaceIntentRequest : Request :=
  { minimalRequest with
    body := { minimalRequest.body with
      intent := some
        { name := " AMAZON.StopIntent"
          confirmation_status := "NONE"
          slots := none } } }

/-- Sample HTML-start payload with every omittable field populated. -/
def sampleHTMLStartFull : AlexaPresentationHTMLStartDirective :=
  { data := [("greeting", "hello")]
    request :=
      { uri := "https://example.invalid/app"
        method := "GET"
        headers := [("Auth", "Bearer x")] }
    configuration := { timeout_in_seconds := some 300 }
    transformers :=
      [{ input_path := "greeting"
         output_name := some "speech"
         transformer :=
           AlexaPresentationHTMLStartDirectiveTransformerType.textToSpeech }] }

/-- Sample HTML-start payload with every omittable field empty or absent. -/
def sampleHTMLStartEmpty : AlexaPresentationHTMLStartDirective :=
  { data := []
    request :=
      { uri := "https://example.invalid/app"
        method := "GET"
        headers := [] }
    configuration := { timeout_in_seconds := none }
    transformers := [] }

/-- Envelope whose intent is present but carries no `slots` key at all. -/
def slotlessIntentEnvelope : Json :=
  Json.obj
    [("version", Json.str "1.0"),
     ("request", Json.obj
       [("type", Json.str "IntentRequest"),
        ("requestId", Json.str "amzn1.echo-api.request.r3"),
        ("timestamp", Json.str "2018-12-03T00:33:58Z"),
        ("locale", Json.str "en-US"),
        ("intent", Json.obj
          [("name", Json.str "hello"),
           ("confirmationStatus", Json.str "NONE")])]),
     ("context", Json.obj
       [("System", Json.obj [("apiAccessToken", Json.str "tok")])])]

/-- The decode of `slotlessIntentEnvelope`: the absent `slots` mapping
comes out as an absent value. -/
def slotlessIntentRequest : Request :=
  { version := "1.0"
    session := none
    body :=
      { reqtype := "IntentRequest"
        request_id := "amzn1.echo-api.request.r3"
        timestamp := "2018-12-03T00:33:58Z"
        locale := "en-US"
        intent := some
          { name := "hello", confirmation_status := "NONE", slots := none }
        reason := none
        dialog_state := none }
    context :=
      { system := { api_access_token := "tok", device := none, application := none }
        audio_player := none } }

/-- Envelope whose session object lacks its required `sessionId` field
(all other session fields are present). -/
def envelopeMissingSessionId : Json :=
  Json.obj
    [("version", Json.str "1.0"),
     ("session", Json.obj
       [("new", Json.bool true),
        ("application", Json.obj [("applicationId", Json.str "app1")]),
        ("user", Json.obj [("userId", Json.str "u1")])]),
     ("request", Json.obj
       [("type", Json.str "LaunchRequest"),
        ("requestId", Json.str "amzn1.echo-api.request.r1"),
        ("timestamp", Json.str "2018-12-03T00:33:58Z"),
        ("locale", Json.str "en-US")]),
     ("context", Json.obj
       [("System", Json.obj [("apiAccessToken", Json.str "tok")])])]

/-- Envelope whose `System` object lacks its required `apiAccessToken`. -/
def envelopeMissingApiAccessToken : Json :=
  Json.obj
    [("version", Json.str "1.0"),
     ("request", Json.obj
       [("type", Json.str "LaunchRequest"),
        ("requestId", Json.str "amzn1.echo-api.request.r1"),
        ("timestamp", Json.str "2018-12-03T00:33:58Z"),
        ("locale", Json.str "en-US")]),
     ("context", Json.obj [("System", Json.obj [])])]

/-! ## Helper lemmas -/

/-- Inversion of `Option` bind, stated for the monadic bind of `do` blocks. -/
theorem obind_eq_some {α β : Type} {x : Option α} {f : α → Option β} {b : β} :
    (x >>= f) = some b ↔ ∃ a, x = some a ∧ f a = some b := by
  cases x <;> simp

/-- A required string field decodes iff the key holds exactly that string. -/
theorem getStr_eq_some {kvs : List (String × Json)} {k s : String} :
    getStr kvs k = some s ↔ jlookup kvs k = some (Json.str s) := by
  unfold getStr
  cases h : jlookup kvs k with
  | none => simp
  | some j => cases j <;> simp

/-- A required sub-structure field decodes iff the key is present and its
value decodes. -/
theorem getReq_eq_some {α : Type} {dec : Json → Option α}
    {kvs : List (String × Json)} {k : String} {a : α} :
    getReq dec kvs k = some a ↔ ∃ j, jlookup kvs k = some j ∧ dec j = some a := by
  unfold getReq
  cases h : jlookup kvs k <;> simp

/-- Any successful `ReqBody` decode read its four required fields off the
object as strings. -/
theorem decodeReqBody_sound {j : Json} {b : ReqBody}
    (h : decodeReqBody j = some b) :
    ∃ kvs, j = Json.obj kvs ∧
      jlookup kvs "type" = some (Json.str b.reqtype) ∧
      jlookup kvs "requestId" = some (Json.str b.request_id) ∧
      jlookup kvs "timestamp" = some (Json.str b.timestamp) ∧
      jlookup kvs "locale" = some (Json.str b.locale) := by
  cases j with
  | obj kvs =>
      refine ⟨kvs, rfl, ?_⟩
      simp only [decodeReqBody, obind_eq_some] at h
      obtain ⟨ty, hty, rid, hrid, ts, hts, loc, hloc, it, hit, rsn, hrsn, ds, hds, heq⟩ := h
      cases heq
      exact ⟨getStr_eq_some.mp hty, getStr_eq_some.mp hrid,
        getStr_eq_some.mp hts, getStr_eq_some.mp hloc⟩
  | null => simp [decodeReqBody] at h
  | bool b' => simp [decodeReqBody] at h
  | num n => simp [decodeReqBody] at h
  | str s => simp [decodeReqBody] at h
  | arr a => simp [decodeReqBody] at h

/-- Any successful `Request` decode read its required fields off the
envelope: `version` as a string, and `request` and `context` as objects
that themselves decode. -/
theorem decodeRequest_sound {j : Json} {r : Request}
    (h : decodeRequest j = some r) :
    ∃ kvs, j = Json.obj kvs ∧
      jlookup kvs "version" = some (Json.str r.version) ∧
      (∃ jb, jlookup kvs "request" = some jb ∧ decodeReqBody jb = some r.body) ∧
      (∃ jc, jlookup kvs "context" = some jc ∧ decodeContext jc = some r.context) := by
  cases j with
  | obj kvs =>
      refine ⟨kvs, rfl, ?_⟩
      simp only [decodeRequest, obind_eq_some] at h
      obtain ⟨v, hv, s, hs, b, hb, c, hc, heq⟩ := h
      cases heq
      exact ⟨getStr_eq_some.mp hv, getReq_eq_some.mp hb, getReq_eq_some.mp hc⟩
  | null => simp [decodeRequest] at h
  | bool b' => simp [decodeRequest] at h
  | num n => simp [decodeRequest] at h
  | str s => simp [decodeRequest] at h
  | arr a => simp [decodeRequest] at h

/-- A required boolean field decodes iff the key holds exactly that bool. -/
theorem getBool_eq_some {kvs : List (String × Json)} {k : String} {b : Bool} :
    getBool kvs k = some b ↔ jlookup kvs k = some (Json.bool b) := by
  unfold getBool
  cases h : jlookup kvs k with
  | none => simp
  | some j => cases j <;> simp

/-- Any successful `Application` decode read its required `applicationId`
field off the object as a string. -/
theorem decodeApplication_sound {j : Json} {a : Application}
    (h : decodeApplication j = some a) :
    ∃ kvs, j = Json.obj kvs ∧
      jlookup kvs "applicationId" = some (Json.str a.application_id) := by
  cases j with
  | obj kvs =>
      refine ⟨kvs, rfl, ?_⟩
      simp only [decodeApplication, Option.map_eq_some'] at h
      obtain ⟨s, hs, heq⟩ := h
      cases heq
      exact getStr_eq_some.mp hs
  | null => simp [decodeApplication] at h
  | bool b' => simp [decodeApplication] at h
  | num n => simp [decodeApplication] at h
  | str s => simp [decodeApplication] at h
  | arr a' => simp [decodeApplication] at h

/-- Any successful `User` decode read its required `userId` field off the
object as a string. -/
theorem decodeUser_sound {j : Json} {u : User} (h : decodeUser j = some u) :
    ∃ kvs, j = Json.obj kvs ∧
      jlookup kvs "userId" = some (Json.str u.user_id) := by
  cases j with
  | obj kvs =>
      refine ⟨kvs, rfl, ?_⟩
      simp only [decodeUser, obind_eq_some] at h
      obtain ⟨uid, huid, tok, htok, heq⟩ := h
      cases heq
      exact getStr_eq_some.mp huid
  | null => simp [decodeUser] at h
  | bool b' => simp [decodeUser] at h
  | num n => simp [decodeUser] at h
  | str s => simp [decodeUser] at h
  | arr a' => simp [decodeUser] at h

/-- Any successful `Session` decode read its required fields off the
object: `new` as a bool, `sessionId` as a string, and `application` and
`user` as present objects that themselves decode. -/
theorem decodeSession_sound {j : Json} {s : Session}
    (h : decodeSession j = some s) :
    ∃ kvs, j = Json.obj kvs ∧
      jlookup kvs "new" = some (Json.bool s.new) ∧
      jlookup kvs "sessionId" = some (Json.str s.session_id) ∧
      (∃ ja, jlookup kvs "application" = some ja
        ∧ decodeApplication ja = some s.application) ∧
      (∃ ju, jlookup kvs "user" = some ju ∧ decodeUser ju = some s.user) := by
  cases j with
  | obj kvs =>
      refine ⟨kvs, rfl, ?_⟩
      simp only [decodeSession, obind_eq_some] at h
      obtain ⟨n, hn, sid, hsid, attrs', hattrs, app, happ, usr, husr, heq⟩ := h
      cases heq
      exact ⟨getBool_eq_some.mp hn, getStr_eq_some.mp hsid,
        getReq_eq_some.mp happ, getReq_eq_some.mp husr⟩
  | null => simp [decodeSession] at h
  | bool b' => simp [decodeSession] at h
  | num n => simp [decodeSession] at h
  | str s' => simp [decodeSession] at h
  | arr a' => simp [decodeSession] at h

/-- Any successful `System` decode read its required `apiAccessToken`
field off the object as a string. -/
theorem decodeSystem_sound {j : Json} {sys : System}
    (h : decodeSystem j = some sys) :
    ∃ kvs, j = Json.obj kvs ∧
      jlookup kvs "apiAccessToken" = some (Json.str sys.api_access_token) := by
  cases j with
  | obj kvs =>
      refine ⟨kvs, rfl, ?_⟩
      simp only [decodeSystem, obind_eq_some] at h
      obtain ⟨tok, htok, dev, hdev, app, happ, heq⟩ := h
      cases heq
      exact getStr_eq_some.mp htok
  | null => simp [decodeSystem] at h
  | bool b' => simp [decodeSystem] at h
  | num n => simp [decodeSystem] at h
  | str s => simp [decodeSystem] at h
  | arr a' => simp [decodeSystem] at h

/-- Any successful `Context` decode read its required `System` field as a
present object that itself decodes. -/
theorem decodeContext_sound {j : Json} {c : Context}
    (h : decodeContext j = some c) :
    ∃ kvs, j = Json.obj kvs ∧
      (∃ js, jlookup kvs "System" = some js ∧ decodeSystem js = some c.system) := by
  cases j with
  | obj kvs =>
      refine ⟨kvs, rfl, ?_⟩
      simp only [decodeContext, obind_eq_some] at h
      obtain ⟨sys, hsys, ap, hap, heq⟩ := h
      cases heq
      exact getReq_eq_some.mp hsys
  | null => simp [decodeContext] at h
  | bool b' => simp [decodeContext] at h
  | num n => simp [decodeContext] at h
  | str s => simp [decodeContext] at h
  | arr a' => simp [decodeContext] at h

/-- Any successful `Intent` decode read its required `name` and
`confirmationStatus` fields off the object as strings. -/
theorem decodeIntent_sound {j : Json} {i : Intent}
    (h : decodeIntent j = some i) :
    ∃ kvs, j = Json.obj kvs ∧
      jlookup kvs "name" = some (Json.str i.name) ∧
      jlookup kvs "confirmationStatus" = some (Json.str i.confirmation_status) := by
  cases j with
  | obj kvs =>
      refine ⟨kvs, rfl, ?_⟩
      simp only [decodeIntent, obind_eq_some] at h
      obtain ⟨n, hn, cs, hcs, sl, hsl, heq⟩ := h
      cases heq
      exact ⟨getStr_eq_some.mp hn, getStr_eq_some.mp hcs⟩
  | null => simp [decodeIntent] at h
  | bool b' => simp [decodeIntent] at h
  | num n => simp [decodeIntent] at h
  | str s => simp [decodeIntent] at h
  | arr a' => simp [decodeIntent] at h

/-- Any successful `Slot` decode read its required `name`, `value` and
`confirmationStatus` fields off the object as strings. -/
theorem decodeSlot_sound {j : Json} {sl : Slot} (h : decodeSlot j = some sl) :
    ∃ kvs, j = Json.obj kvs ∧
      jlookup kvs "name" = some (Json.str sl.name) ∧
      jlookup kvs "value" = some (Json.str sl.value) ∧
      jlookup kvs "confirmationStatus" = some (Json.str sl.confirmation_status) := by
  cases j with
  | obj kvs =>
      refine ⟨kvs, rfl, ?_⟩
      simp only [decodeSlot, obind_eq_some] at h
      obtain ⟨n, hn, v, hv, cs, hcs, res, hres, heq⟩ := h
      cases heq
      exact ⟨getStr_eq_some.mp hn, getStr_eq_some.mp hv, getStr_eq_some.mp hcs⟩
  | null => simp [decodeSlot] at h
  | bool b' => simp [decodeSlot] at h
  | num n => simp [decodeSlot] at h
  | str s => simp [decodeSlot] at h
  | arr a' => simp [decodeSlot] at h

/-! ## Claims -/

/-- Claim C3: locale classification is total: each of the eight supported
tags maps to its enumerated variant and every other string maps to
`Unknown`; it never fails. -/
theorem locale_classification_total :
    (Locale.fromString "it-IT" = Locale.italian
      ∧ Locale.fromString "de-DE" = Locale.german
      ∧ Locale.fromString "en-AU" = Locale.australianEnglish
      ∧ Locale.fromString "en-CA" = Locale.canadianEnglish
      ∧ Locale.fromString "en-GB" = Locale.britishEnglish
      ∧ Locale.fromString "en-IN" = Locale.indianEnglish
      ∧ Locale.fromString "en-US" = Locale.americanEnglish
      ∧ Locale.fromString "ja-JP" = Locale.japanese)
    ∧ (∀ s : String, s ∉ supportedLocaleTags →
        Locale.fromString s = Locale.unknown) := by
  constructor
  · exact ⟨by decide, by decide, by decide, by decide, by decide, by decide,
      by decide, by decide⟩
  · intro s hs
    have h1 : ¬(s = "it-IT") := fun h => hs (by rw [h]; decide)
    have h2 : ¬(s = "de-DE") := fun h => hs (by rw [h]; decide)
    have h3 : ¬(s = "en-AU") := fun h => hs (by rw [h]; decide)
    have h4 : ¬(s = "en-CA") := fun h => hs (by rw [h]; decide)
    have h5 : ¬(s = "en-GB") := fun h => hs (by rw [h]; decide)
    have h6 : ¬(s = "en-IN") := fun h => hs (by rw [h]; decide)
    have h7 : ¬(s = "en-US") := fun h => hs (by rw [h]; decide)
    have h8 : ¬(s = "ja-JP") := fun h => hs (by rw [h]; decide)
    simp [Locale.fromString, h1, h2, h3, h4, h5, h6, h7, h8]

/-- Witness for C3 at the concrete unsupported tag `"xx-XX"`. -/
theorem locale_classification_total_witness :
    "xx-XX" ∉ supportedLocaleTags ∧ Locale.fromString "xx-XX" = Locale.unknown :=
  ⟨by decide, locale_classification_total.2 "xx-XX" (by decide)⟩

/-- Claim C8: every `Speech` built by the public constructors populates
exactly one of `text`/`ssml`, matching `type`, and setting a play
behavior preserves the invariant. -/
theorem speech_exactly_one_populated :
    (∀ s : String, speechWf (Speech.plain s)
      ∧ (Speech.plain s).speech_type = "PlainText"
      ∧ (Speech.plain s).text = some s ∧ (Speech.plain s).ssml = none)
    ∧ (∀ s : String, speechWf (Speech.ssml_of s)
      ∧ (Speech.ssml_of s).speech_type = "SSML"
      ∧ (Speech.ssml_of s).ssml = some s ∧ (Speech.ssml_of s).text = none)
    ∧ (∀ (sp : Speech) (b : PlayBehavior),
        speechWf sp → speechWf (sp.set_play_behavior b)) := by
  refine ⟨fun s => ⟨Or.inl ⟨rfl, by simp [Speech.plain], rfl⟩, rfl, rfl, rfl⟩,
    fun s => ⟨Or.inr ⟨rfl, by simp [Speech.ssml_of], rfl⟩, rfl, rfl, rfl⟩,
    fun sp b h => ?_⟩
  simpa [speechWf, Speech.set_play_behavior] using h

/-- Witness for C8 at concrete speech values. -/
theorem speech_exactly_one_populated_witness :
    speechWf (Speech.plain "hi")
      ∧ speechWf ((Speech.ssml_of "<speak/>").set_play_behavior
          PlayBehavior.enqueue) :=
  ⟨(speech_exactly_one_populated.1 "hi").1,
    speech_exactly_one_populated.2.2 _ _
      (by simp [speechWf, Speech.ssml_of, speechTypeString])⟩

/-- Claim C9: `is_english` holds exactly on the five English variants. -/
theorem is_english_characterization :
    ∀ l : Locale, l.is_english = true ↔
      (l = Locale.americanEnglish ∨ l = Locale.australianEnglish
        ∨ l = Locale.canadianEnglish ∨ l = Locale.britishEnglish
        ∨ l = Locale.indianEnglish) := by
  intro l
  cases l <;> simp [Locale.is_english]

/-- Claim C10: the `speech` and `card` builder steps change only their own
field of the body (last write wins) and leave the version, session
attributes, reprompt, end-session flag and directive list unchanged. -/
theorem speech_card_builder_frame :
    ∀ (r : Response) (s : Speech) (c : Card),
      (r.speech s).version = r.version
      ∧ (r.speech s).session_attributes = r.session_attributes
      ∧ (r.speech s).body.output_speech = some s
      ∧ (r.speech s).body.card = r.body.card
      ∧ (r.speech s).body.reprompt = r.body.reprompt
      ∧ (r.speech s).body.should_end_session = r.body.should_end_session
      ∧ (r.speech s).body.directives = r.body.directives
      ∧ (r.card c).version = r.version
      ∧ (r.card c).session_attributes = r.session_attributes
      ∧ (r.card c).body.card = some c
      ∧ (r.card c).body.output_speech = r.body.output_speech
      ∧ (r.card c).body.reprompt = r.body.reprompt
      ∧ (r.card c).body.should_end_session = r.body.should_end_session
      ∧ (r.card c).body.directives = r.body.directives := by
  intro r s c
  exact ⟨rfl, rfl, rfl, rfl, rfl, rfl, rfl, rfl, rfl, rfl, rfl, rfl, rfl, rfl⟩

/-- Claim C1: decoding fails outright (no partial value) when a required
field anywhere in the Request model is absent or mistyped — any
successful decode of the envelope or of any nested structure read every
required field with its required type, and envelopes lacking or mistyping
`requestId`, lacking `sessionId`, or lacking `apiAccessToken` decode to
`none` — while absent optional fields (session, attributes, accessToken,
intent, reason, dialogState, audioPlayer, device, application, slots,
resolutions) decode to absent values. -/
theorem decode_strict_required_lenient_optional :
    (∀ j r, decodeRequest j = some r → ∃ kvs, j = Json.obj kvs ∧
      jlookup kvs "version" = some (Json.str r.version) ∧
      (∃ jb, jlookup kvs "request" = some jb ∧ decodeReqBody jb = some r.body) ∧
      (∃ jc, jlookup kvs "context" = some jc ∧ decodeContext jc = some r.context))
    ∧ (∀ j b, decodeReqBody j = some b → ∃ kvs, j = Json.obj kvs ∧
      jlookup kvs "type" = some (Json.str b.reqtype) ∧
      jlookup kvs "requestId" = some (Json.str b.request_id) ∧
      jlookup kvs "timestamp" = some (Json.str b.timestamp) ∧
      jlookup kvs "locale" = some (Json.str b.locale))
    ∧ (∀ j s, decodeSession j = some s → ∃ kvs, j = Json.obj kvs ∧
      jlookup kvs "new" = some (Json.bool s.new) ∧
      jlookup kvs "sessionId" = some (Json.str s.session_id) ∧
      (∃ ja, jlookup kvs "application" = some ja
        ∧ decodeApplication ja = some s.application) ∧
      (∃ ju, jlookup kvs "user" = some ju ∧ decodeUser ju = some s.user))
    ∧ (∀ j sys, decodeSystem j = some sys → ∃ kvs, j = Json.obj kvs ∧
      jlookup kvs "apiAccessToken" = some (Json.str sys.api_access_token))
    ∧ (∀ j c, decodeContext j = some c → ∃ kvs, j = Json.obj kvs ∧
      (∃ js, jlookup kvs "System" = some js ∧ decodeSystem js = some c.system))
    ∧ (∀ j i, decodeIntent j = some i → ∃ kvs, j = Json.obj kvs ∧
      jlookup kvs "name" = some (Json.str i.name) ∧
      jlookup kvs "confirmationStatus" = some (Json.str i.confirmation_status))
    ∧ (∀ j u, decodeUser j = some u → ∃ kvs, j = Json.obj kvs ∧
      jlookup kvs "userId" = some (Json.str u.user_id))
    ∧ (∀ j a, decodeApplication j = some a → ∃ kvs, j = Json.obj kvs ∧
      jlookup kvs "applicationId" = some (Json.str a.application_id))
    ∧ (∀ j sl, decodeSlot j = some sl → ∃ kvs, j = Json.obj kvs ∧
      jlookup kvs "name" = some (Json.str sl.name) ∧
      jlookup kvs "value" = some (Json.str sl.value) ∧
      jlookup kvs "confirmationStatus" = some (Json.str sl.confirmation_status))
    ∧ decodeRequest envelopeMissingRequestId = none
    ∧ decodeRequest envelopeMistypedRequestId = none
    ∧ decodeRequest envelopeMissingSessionId = none
    ∧ decodeRequest envelopeMissingApiAccessToken = none
    ∧ decodeRequest minimalEnvelope = some minimalRequest
    ∧ minimalRequest.session = none
    ∧ minimalRequest.body.intent = none
    ∧ minimalRequest.body.reason = none
    ∧ minimalRequest.body.dialog_state = none
    ∧ minimalRequest.context.audio_player = none
    ∧ minimalRequest.context.system.device = none
    ∧ minimalRequest.context.system.application = none
    ∧ decodeRequest optionalsEnvelope = some optionalsRequest
    ∧ (optionalsRequest.session.map Session.attributes) = some none
    ∧ (optionalsRequest.session.map (fun s => s.user.access_token)) = some none
    ∧ (optionalsRequest.body.intent.map Intent.slots)
        = some (some [("who",
            { name := "who", value := "world", confirmation_status := "NONE",
              resolutions := none })])
    ∧ decodeRequest slotlessIntentEnvelope = some slotlessIntentRequest
    ∧ (slotlessIntentRequest.body.intent.map Intent.slots) = some none := by
  refine ⟨fun j r h => decodeRequest_sound h, fun j b h => decodeReqBody_sound h,
    fun j s h => decodeSession_sound h, fun j sys h => decodeSystem_sound h,
    fun j c h => decodeContext_sound h, fun j i h => decodeIntent_sound h,
    fun j u h => decodeUser_sound h, fun j a h => decodeApplication_sound h,
    fun j sl h => decodeSlot_sound h,
    rfl, rfl, rfl, rfl, rfl, rfl, rfl, rfl, rfl, rfl, rfl, rfl, rfl, rfl, rfl,
    rfl, rfl, rfl⟩

/-- Witness for C1: the soundness part applied at the minimal envelope. -/
theorem decode_strict_required_lenient_optional_witness :
    ∃ kvs, minimalEnvelope = Json.obj kvs ∧
      jlookup kvs "version" = some (Json.str minimalRequest.version) ∧
      (∃ jb, jlookup kvs "request" = some jb
        ∧ decodeReqBody jb = some minimalRequest.body) ∧
      (∃ jc, jlookup kvs "context" = some jc
        ∧ decodeContext jc = some minimalRequest.context) :=
  decode_strict_required_lenient_optional.1 minimalEnvelope minimalRequest rfl

/-- Claim C2: intent classification returns `None` when no intent is
present, the matching built-in variant for each of the 17 built-in names,
and `User(name)` verbatim for any other name (exact match, no
normalization). -/
theorem intent_classification_exact_match :
    ∀ r : Request,
      (r.body.intent = none → r.intent = IntentType.none)
      ∧ (∀ i, r.body.intent = some i →
          (∀ p ∈ builtinIntentTable, i.name = p.1 → r.intent = p.2)
          ∧ ((∀ p ∈ builtinIntentTable, i.name ≠ p.1) →
              r.intent = IntentType.user i.name)) := by
  intro r
  refine ⟨fun h => by simp [Request.intent, h], fun i hi => ⟨?_, ?_⟩⟩
  · intro p hp hname
    fin_cases hp <;> simp [Request.intent, hi, hname]
  · intro H
    have h01 : ¬(i.name = "AMAZON.HelpIntent") :=
      H ("AMAZON.HelpIntent", IntentType.help) (by decide)
    have h02 : ¬(i.name = "AMAZON.CancelIntent") :=
      H ("AMAZON.CancelIntent", IntentType.cancel) (by decide)
    have h03 : ¬(i.name = "AMAZON.FallbackIntent") :=
      H ("AMAZON.FallbackIntent", IntentType.fallback) (by decide)
    have h04 : ¬(i.name = "AMAZON.LoopOffIntent") :=
      H ("AMAZON.LoopOffIntent", IntentType.loopOff) (by decide)
    have h05 : ¬(i.name = "AMAZON.LoopOnIntent") :=
      H ("AMAZON.LoopOnIntent", IntentType.loopOn) (by decide)
    have h06 : ¬(i.name = "AMAZON.NextIntent") :=
      H ("AMAZON.NextIntent", IntentType.next) (by decide)
    have h07 : ¬(i.name = "AMAZON.NoIntent") :=
      H ("AMAZON.NoIntent", IntentType.no) (by decide)
    have h08 : ¬(i.name = "AMAZON.PauseIntent") :=
      H ("AMAZON.PauseIntent", IntentType.pause) (by decide)
    have h09 : ¬(i.name = "AMAZON.PreviousIntent") :=
      H ("AMAZON.PreviousIntent", IntentType.previous) (by decide)
    have h10 : ¬(i.name = "AMAZON.RepeatIntent") :=
      H ("AMAZON.RepeatIntent", IntentType.repeat) (by decide)
    have h11 : ¬(i.name = "AMAZON.ResumeIntent") :=
      H ("AMAZON.ResumeIntent", IntentType.resume) (by decide)
    have h12 : ¬(i.name = "AMAZON.SelectIntent") :=
      H ("AMAZON.SelectIntent", IntentType.select) (by decide)
    have h13 : ¬(i.name = "AMAZON.ShuffleOffIntent") :=
      H ("AMAZON.ShuffleOffIntent", IntentType.shuffleOff) (by decide)
    have h14 : ¬(i.name = "AMAZON.ShuffleOnIntent") :=
      H ("AMAZON.ShuffleOnIntent", IntentType.shuffleOn) (by decide)
    have h15 : ¬(i.name = "AMAZON.StartOverIntent") :=
      H ("AMAZON.StartOverIntent", IntentType.startOver) (by decide)
    have h16 : ¬(i.name = "AMAZON.StopIntent") :=
      H ("AMAZON.StopIntent", IntentType.stop) (by decide)
    have h17 : ¬(i.name = "AMAZON.YesIntent") :=
      H ("AMAZON.YesIntent", IntentType.yes) (by decide)
    simp [Request.intent, hi, h01, h02, h03, h04, h05, h06, h07, h08, h09,
      h10, h11, h12, h13, h14, h15, h16, h17]

/-- Witness for C2: a whitespace-padded built-in name classifies as a
custom intent, and an intent-free request classifies as `None`. -/
theorem intent_classification_exact_match_witness :
    whitespaceIntentRequest.intent = IntentType.user " AMAZON.StopIntent"
      ∧ minimalRequest.intent = IntentType.none :=
  ⟨((intent_classification_exact_match whitespaceIntentRequest).2
      { name := " AMAZON.StopIntent", confirmation_status := "NONE", slots := none }
      rfl).2 (by decide),
    (intent_classification_exact_match minimalRequest).1 rfl⟩

/-- Claim C4: `Response::simple(T, X)` sets version `"1.0"`, ends the
session, attaches a Simple card `(T, X)` and plain speech `X`, and its
serialization omits the `sessionAttributes` and `directives` keys
entirely. -/
theorem simple_response_shape :
    ∀ title text : String,
      (Response.simple title text).version = "1.0"
      ∧ (Response.simple title text).body.should_end_session = some true
      ∧ (Response.simple title text).body.card = some (Card.simple title text)
      ∧ (Card.simple title text).card_type = "Simple"
      ∧ (Card.simple title text).title = some title
      ∧ (Card.simple title text).content = some text
      ∧ (Response.simple title text).body.output_speech = some (Speech.plain text)
      ∧ (Speech.plain text).speech_type = "PlainText"
      ∧ (Speech.plain text).text = some text
      ∧ objKeys (encodeResponse (Response.simple title text))
          = ["version", "response"]
      ∧ ¬("sessionAttributes" ∈ objKeys (encodeResponse (Response.simple title text)))
      ∧ jlookup (objFields (encodeResponse (Response.simple title text))) "response"
          = some (encodeResBody (Response.simple title text).body)
      ∧ objKeys (encodeResBody (Response.simple title text).body)
          = ["outputSpeech", "card", "shouldEndSession"]
      ∧ ¬("directives" ∈ objKeys (encodeResBody (Response.simple title text).body)) := by
  intro title text
  have h1 : objKeys (encodeResponse (Response.simple title text))
      = ["version", "response"] := rfl
  have h2 : objKeys (encodeResBody (Response.simple title text).body)
      = ["outputSpeech", "card", "shouldEndSession"] := rfl
  refine ⟨rfl, rfl, rfl, rfl, rfl, rfl, rfl, rfl, rfl, h1, ?_, rfl, h2, ?_⟩
  · rw [h1]; decide
  · rw [h2]; decide

/-- Witness for C4 at the concrete title/text pair `("T", "X")`. -/
theorem simple_response_shape_witness :
    ¬("sessionAttributes" ∈ objKeys (encodeResponse (Response.simple "T" "X")))
      ∧ ¬("directives" ∈ objKeys (encodeResBody (Response.simple "T" "X").body)) :=
  ⟨(simple_response_shape "T" "X").2.2.2.2.2.2.2.2.2.2.1,
    (simple_response_shape "T" "X").2.2.2.2.2.2.2.2.2.2.2.2.2⟩

/-- Appending directives one at a time with the builder accumulates them in
order after the existing list. -/
theorem foldl_add_directive (r : Response) (ds : List Directive) :
    (ds.foldl Response.add_directive r).body.directives
      = r.body.directives ++ ds := by
  induction ds generalizing r with
  | nil => simp
  | cons d t ih =>
      simp [List.foldl, ih, Response.add_directive, List.append_assoc]

/-- With a non-empty directive list, the serialized body carries the
`directives` key with the encoded directives in order. -/
theorem encodeResBody_directives_lookup (b : ResBody)
    (h : ¬(b.directives = [])) :
    jlookup (objFields (encodeResBody b)) "directives"
      = some (Json.arr (b.directives.map encodeDirective)) := by
  cases ho : b.output_speech <;> cases hc : b.card <;> cases hr : b.reprompt <;>
    cases hs : b.should_end_session <;>
      simp [encodeResBody, optField, objFields, jlookup, ho, hc, hr, hs, h]

/-- Claim C7: `add_directive` appends to the ordered directive sequence,
and the order of addition is preserved in the serialized directive list. -/
theorem add_directive_append_order :
    ∀ (r : Response) (ds : List Directive),
      (ds.foldl Response.add_directive r).body.directives
          = r.body.directives ++ ds
      ∧ (∀ d, (r.add_directive d).body.directives = r.body.directives ++ [d])
      ∧ (¬(r.body.directives ++ ds = []) →
          jlookup (objFields (encodeResBody
              (ds.foldl Response.add_directive r).body)) "directives"
            = some (Json.arr ((r.body.directives ++ ds).map encodeDirective))) := by
  intro r ds
  refine ⟨foldl_add_directive r ds, fun d => rfl, fun h => ?_⟩
  rw [encodeResBody_directives_lookup _ (by rw [foldl_add_directive]; exact h),
    foldl_add_directive]

/-- Witness for C7 at a concrete one-directive sequence. -/
theorem add_directive_append_order_witness :
    jlookup (objFields (encodeResBody
        (([Directive.alexaPresentationHTMLStartDirective sampleHTMLStartFull].foldl
          Response.add_directive (Response.new none)).body))) "directives"
      = some (Json.arr (((Response.new none).body.directives
          ++ [Directive.alexaPresentationHTMLStartDirective sampleHTMLStartFull]).map
            encodeDirective)) :=
  (add_directive_append_order (Response.new none)
    [Directive.alexaPresentationHTMLStartDirective sampleHTMLStartFull]).2.2
    (by simp [Response.new])

/-- Updating one key of the attribute map changes that key's binding to the
new value and leaves every other key's binding unchanged. -/
theorem alookup_insertA (m : List (String × String)) (k v k' : String) :
    alookup (insertA m k v) k' = if k = k' then some v else alookup m k' := by
  induction m with
  | nil => simp [insertA, alookup]
  | cons p t ih =>
      obtain ⟨k0, v0⟩ := p
      by_cases h0 : k0 = k
      · subst h0
        by_cases h1 : k0 = k'
        · simp [insertA, alookup, h1]
        · simp [insertA, alookup, h1]
      · by_cases h1 : k0 = k'
        · have h2 : ¬(k = k') := fun h => h0 (h1.trans h.symm)
          have h3 : ¬(k' = k) := fun h => h2 h.symm
          simp [insertA, alookup, h0, h1, h2, h3]
        · simp [insertA, alookup, h0, h1, ih]

/-- A key is in the updated attribute map iff it is the inserted key or was
already present. -/
theorem mem_akeys_insertA (m : List (String × String)) (k v a : String) :
    a ∈ akeys (insertA m k v) ↔ a = k ∨ a ∈ akeys m := by
  induction m with
  | nil => simp [insertA, akeys]
  | cons p t ih =>
      obtain ⟨k0, v0⟩ := p
      by_cases h0 : k0 = k
      · subst h0
        simp only [insertA, if_pos rfl]
        simp [akeys]
        try tauto
      · simp only [insertA, if_neg h0]
        simp [akeys] at ih ⊢
        try tauto

/-- Key-replacing insertion preserves key uniqueness. -/
theorem nodup_akeys_insertA (m : List (String × String)) (k v : String)
    (h : (akeys m).Nodup) : (akeys (insertA m k v)).Nodup := by
  induction m with
  | nil => simp [insertA, akeys]
  | cons p t ih =>
      obtain ⟨k0, v0⟩ := p
      rw [show akeys ((k0, v0) :: t) = k0 :: akeys t from rfl,
        List.nodup_cons] at h
      by_cases h0 : k0 = k
      · subst h0
        rw [show akeys (insertA ((k0, v0) :: t) k0 v) = k0 :: akeys t from by
          simp [insertA, akeys], List.nodup_cons]
        exact h
      · have h3 : ¬(k0 ∈ akeys (insertA t k v)) := by
          rw [mem_akeys_insertA]
          push_neg
          exact ⟨h0, h.1⟩
        rw [show akeys (insertA ((k0, v0) :: t) k v)
            = k0 :: akeys (insertA t k v) from by simp [insertA, akeys, h0],
          List.nodup_cons]
        exact ⟨h3, ih h.2⟩

/-- Attribute lookup after `add_attribute`: the written key now maps to the
written value; other keys are untouched (covers the lazily created map). -/
theorem alookup_attrs_add (r : Response) (k v k' : String) :
    alookup (attrs (r.add_attribute k v)) k'
      = if k = k' then some v else alookup (attrs r) k' := by
  cases h : r.session_attributes with
  | none => simp [Response.add_attribute, h, attrs, alookup]
  | some m => simp [Response.add_attribute, h, attrs, alookup_insertA]

/-- Claim C6: `add_attribute` is an upsert into a lazily created mapping
with unique keys, last write wins, and once the mapping exists it is never
omitted on encode. -/
theorem session_attribute_upsert :
    ∀ (r : Response) (k v : String),
      (r.session_attributes = none →
        (r.add_attribute k v).session_attributes = some [(k, v)])
      ∧ (∀ m, r.session_attributes = some m →
          (r.add_attribute k v).session_attributes = some (insertA m k v))
      ∧ (∀ k', alookup (attrs (r.add_attribute k v)) k'
          = if k = k' then some v else alookup (attrs r) k')
      ∧ (∀ v2 k', alookup (attrs ((r.add_attribute k v).add_attribute k v2)) k'
          = if k = k' then some v2 else alookup (attrs r) k')
      ∧ ((akeys (attrs r)).Nodup → (akeys (attrs (r.add_attribute k v))).Nodup)
      ∧ ¬(attrs (r.add_attribute k v) = [])
      ∧ "sessionAttributes" ∈ objKeys (encodeResponse (r.add_attribute k v)) := by
  intro r k v
  refine ⟨fun h => by simp [Response.add_attribute, h],
    fun m h => by simp [Response.add_attribute, h],
    alookup_attrs_add r k v,
    fun v2 k' => ?_, ?_, ?_, ?_⟩
  · rw [alookup_attrs_add, alookup_attrs_add]
    by_cases hkk : k = k' <;> simp [hkk]
  · intro h
    cases hs : r.session_attributes with
    | none => simp [Response.add_attribute, hs, attrs, akeys]
    | some m =>
        have := nodup_akeys_insertA m k v (by simpa [attrs, hs] using h)
        simpa [Response.add_attribute, hs, attrs] using this
  · cases hs : r.session_attributes with
    | none => simp [Response.add_attribute, hs, attrs]
    | some m =>
        simp [Response.add_attribute, hs, attrs]
        cases m with
        | nil => simp [insertA]
        | cons p t =>
            obtain ⟨k0, v0⟩ := p
            by_cases h0 : k0 = k <;> simp [insertA, h0]
  · cases hs : r.session_attributes <;>
      simp [Response.add_attribute, hs, encodeResponse, optField, objKeys,
        objFields]

/-- Witness for C6 at concrete attribute writes on a fresh response. -/
theorem session_attribute_upsert_witness :
    ((Response.new none).add_attribute "a" "1").session_attributes
        = some [("a", "1")]
      ∧ alookup (attrs (((Response.new none).add_attribute "a" "1").add_attribute
          "a" "2")) "a" = some "2" := by
  have h := session_attribute_upsert (Response.new none) "a" "1"
  exact ⟨h.1 rfl, by simpa using h.2.2.2.1 "2" "a"⟩

/-- Claim C5: directive encoding emits the fixed `type` tag
`"Alexa.Presentation.HTML.Start"` with the payload's omit-if-empty and
omit-if-absent rules, and decoding dispatches purely on the `type` value,
rejecting unrecognized tags with no passthrough. -/
theorem directive_tagged_union :
    (∀ d : Directive, jlookup (objFields (encodeDirective d)) "type"
        = some (Json.str "Alexa.Presentation.HTML.Start"))
    ∧ (∀ p : AlexaPresentationHTMLStartDirective,
        (p.data = [] → ¬("data" ∈ objKeys
          (encodeDirective (Directive.alexaPresentationHTMLStartDirective p))))
        ∧ (¬(p.data = []) → "data" ∈ objKeys
          (encodeDirective (Directive.alexaPresentationHTMLStartDirective p)))
        ∧ (p.transformers = [] → ¬("transformers" ∈ objKeys
          (encodeDirective (Directive.alexaPresentationHTMLStartDirective p))))
        ∧ (¬(p.transformers = []) → "transformers" ∈ objKeys
          (encodeDirective (Directive.alexaPresentationHTMLStartDirective p))))
    ∧ (∀ q : AlexaPresentationHTMLStartDirectiveRequest,
        (q.headers = [] → ¬("headers" ∈ objKeys (encodeHTMLStartRequest q)))
        ∧ (¬(q.headers = []) → "headers" ∈ objKeys (encodeHTMLStartRequest q)))
    ∧ (∀ c : AlexaPresentationHTMLStartDirectiveConfiguration,
        (c.timeout_in_seconds = none →
          ¬("timeoutInSeconds" ∈ objKeys (encodeHTMLStartConfiguration c)))
        ∧ (∀ n, c.timeout_in_seconds = some n →
          "timeoutInSeconds" ∈ objKeys (encodeHTMLStartConfiguration c)))
    ∧ (∀ t : AlexaPresentationHTMLStartDirectiveTransformer,
        (t.output_name = none →
          ¬("outputName" ∈ objKeys (encodeTransformer t)))
        ∧ (∀ s, t.output_name = some s →
          "outputName" ∈ objKeys (encodeTransformer t)))
    ∧ (∀ kvs, jlookup kvs "type"
          = some (Json.str "Alexa.Presentation.HTML.Start") →
        decodeDirective (Json.obj kvs)
          = (decodeHTMLStartPayload (Json.obj kvs)).map
              Directive.alexaPresentationHTMLStartDirective)
    ∧ (∀ kvs t, jlookup kvs "type" = some (Json.str t) →
        ¬(t = "Alexa.Presentation.HTML.Start") →
        decodeDirective (Json.obj kvs) = none)
    ∧ (∀ kvs, jlookup kvs "type" = none →
        decodeDirective (Json.obj kvs) = none) := by
  refine ⟨?_, ?_, ?_, ?_, ?_, ?_, ?_, ?_⟩
  · intro d
    cases d
    simp [encodeDirective, objFields, jlookup]
  · intro p
    refine ⟨fun hd => ?_, fun hd => ?_, fun ht => ?_, fun ht => ?_⟩ <;>
      first
      | (by_cases ht : p.transformers = [] <;>
          simp [encodeDirective, encodeHTMLStartFields, objKeys, objFields,
            hd, ht])
      | (by_cases hd : p.data = [] <;>
          simp [encodeDirective, encodeHTMLStartFields, objKeys, objFields,
            hd, ht])
  · intro q
    constructor <;> intro h <;>
      simp [encodeHTMLStartRequest, objKeys, objFields, h]
  · intro c
    constructor
    · intro h
      simp [encodeHTMLStartConfiguration, optField, objKeys, objFields, h]
    · intro n h
      simp [encodeHTMLStartConfiguration, optField, objKeys, objFields, h]
  · intro t
    constructor
    · intro h
      simp [encodeTransformer, optField, objKeys, objFields, h]
    · intro s h
      simp [encodeTransformer, optField, objKeys, objFields, h]
  · intro kvs h
    simp [decodeDirective, h]
  · intro kvs t h hne
    simp [decodeDirective, h, hne]
  · intro kvs h
    simp [decodeDirective, h]

/-- Witness for C5 at concrete payloads and a concrete unrecognized tag. -/
theorem directive_tagged_union_witness :
    jlookup (objFields (encodeDirective
        (Directive.alexaPresentationHTMLStartDirective sampleHTMLStartFull)))
        "type" = some (Json.str "Alexa.Presentation.HTML.Start")
      ∧ "data" ∈ objKeys (encodeDirective
          (Directive.alexaPresentationHTMLStartDirective sampleHTMLStartFull))
      ∧ ¬("data" ∈ objKeys (encodeDirective
          (Directive.alexaPresentationHTMLStartDirective sampleHTMLStartEmpty)))
      ∧ decodeDirective
          (Json.obj [("type", Json.str "Alexa.Presentation.APL.RenderDocument")])
          = none :=
  ⟨directive_tagged_union.1 _,
    (directive_tagged_union.2.1 sampleHTMLStartFull).2.1 (by decide),
    (directive_tagged_union.2.1 sampleHTMLStartEmpty).1 rfl,
    directive_tagged_union.2.2.2.2.2.2.1
      [("type", Json.str "Alexa.Presentation.APL.RenderDocument")]
      "Alexa.Presentation.APL.RenderDocument" rfl (by decide)⟩

end Alexa
